import Mathlib

/-!
Verification of the DVC experiment queue engine
(`dvc/repo/experiments/queue/local.py`): a shallow embedding of the two
queue classes (`LocalCeleryQueue`, `WorkspaceQueue`) over explicit
snapshots of their external collaborators (broker message views, the
task-result backend, the info-record store, the stash and the process
manager), together with theorems settling its specification claims.

Python exceptions are embedded as the error side of `Except`; generators
are embedded as the lists they yield over a fixed snapshot; `try/finally`
is embedded by pairing every outcome of the guarded block with the
cleanup effect.
-/

/-- `QueueEntry` (declared in `queue/base.py`, which is not under `src/`).
Modelled from the spec: identifies one queued unit of work; fields are the
workspace root, upstream repo root, logical queue reference name, stash
revision (primary key), baseline revision, optional branch, optional human
name and head revision. These are exactly the eight positional fields the
source constructs in `WorkspaceQueue.get` and `iter_queued`. -/
structure QueueEntry where
  dvc_root : String
  scm_root : String
  stash_ref : String
  stash_rev : String
  baseline_rev : String
  branch : Option String
  name : Option String
  head_rev : Option String
deriving DecidableEq, Repr

/-- `ExpStashEntry` (declared in `experiments/stash.py`, not under `src/`).
Modelled from the spec: the durable record of one queued job input; only
the four fields read by the source (`baseline_rev`, `branch`, `name`,
`head_rev`) are represented. -/
structure ExpStashEntry where
  baseline_rev : String
  branch : Option String
  name : Option String
  head_rev : Option String
deriving DecidableEq, Repr

/-- `ExecutorResult` (declared in `executor/base.py`, not under `src/`).
Modelled from the spec: the outcome of one execution; an experiment hash
(falsy when absent or empty) and an optional reference to the produced
branch. -/
structure ExecutorResult where
  exp_hash : Option String
  ref_info : Option String
deriving DecidableEq, Repr

/-- `ExecutorInfo` (declared in `executor/base.py`, not under `src/`).
Modelled from the spec: the persisted per-revision info record, read by
the source through `ExecutorInfo.load_json`; a flag saying whether the
result has been durably collected, and the result itself. -/
structure ExecutorInfo where
  collected : Bool
  result : Option ExecutorResult
deriving DecidableEq, Repr

/-- The distinct failure conditions raised by the source. Each constructor
stands for one Python exception identity:
`dvcNotStarted` for DvcException "Experiment has not been started.",
`dvcTimedOut` for DvcException "Timed out waiting for exp to finish.",
`dvcInvalidExp` for DvcException "Invalid experiment.",
`dvcQueuedNotStarted rev` for DvcException "Experiment rev is in queue but
has not been started", `dvcNoLogs rev` for DvcException "No output logs
found for experiment rev", `dvcFailedReproduce r7` for DvcException
"Failed to reproduce experiment r7" (with `r7` the first seven characters
of the revision), `unresolvedNames` for `UnresolvedQueueExpNamesError`,
`expQueueEmpty` for `ExpQueueEmptyError`, and `fileNotFound` for an
uncaught `FileNotFoundError`. -/
inductive QErr where
  | dvcNotStarted
  | dvcTimedOut
  | dvcInvalidExp
  | dvcQueuedNotStarted (rev : String)
  | dvcNoLogs (rev : String)
  | dvcFailedReproduce (rev7 : String)
  | unresolvedNames (revs : List String)
  | expQueueEmpty
  | fileNotFound
deriving DecidableEq, Repr

/-- The registered name of the `run_exp` celery task (`queue/tasks.py`,
not under `src/`; the source only compares message headers against this
constant, so its concrete value is immaterial to every claim). -/
def run_exp_name : String := "dvc.repo.experiments.queue.tasks.run_exp"

/-- A broker message as the source observes it: the `task` header
(`msg.headers.get("task")`), the `id` header (`msg.headers["id"]`), the
delivery tag, and the `QueueEntry` that `msg.decode()` plus
`QueueEntry.from_dict` would produce (only consulted for messages of the
`run_exp` task type). -/
structure Message where
  task : Option String
  task_id : String
  delivery_tag : String
  entry : QueueEntry
deriving DecidableEq, Repr

/-- A point-in-time snapshot of the broker and the task-result backend:
`queued` is the view behind `celery.iter_queued()` (messages not yet
delivered), `processed` the view behind `celery.iter_processed()`
(delivered messages), and `ready tid` the value of
`AsyncResult(tid).ready()` (whether that task reached a terminal state). -/
structure CelerySnapshot where
  queued : List Message
  processed : List Message
  ready : String → Bool

namespace LocalCeleryQueue

/-- `LocalCeleryQueue._iter_queued`: filters the not-yet-delivered message
view to this system's task type and decodes each message's entry. -/
def _iter_queued (s : CelerySnapshot) : List (Message × QueueEntry) :=
  (s.queued.filter (fun m => m.task == some run_exp_name)).map
    (fun m => (m, m.entry))

/-- `LocalCeleryQueue.iter_queued`: the entries of `_iter_queued`. -/
def iter_queued (s : CelerySnapshot) : List QueueEntry :=
  (_iter_queued s).map Prod.snd

/-- `LocalCeleryQueue._iter_processed`: filters the delivered message view
to this system's task type and decodes each message's entry. -/
def _iter_processed (s : CelerySnapshot) : List (Message × QueueEntry) :=
  (s.processed.filter (fun m => m.task == some run_exp_name)).map
    (fun m => (m, m.entry))

/-- `LocalCeleryQueue._iter_active_tasks`: delivered messages whose task
has not reached a terminal state, as (task id, entry) pairs. -/
def _iter_active_tasks (s : CelerySnapshot) : List (String × QueueEntry) :=
  ((_iter_processed s).filter (fun p => !(s.ready p.1.task_id))).map
    (fun p => (p.1.task_id, p.2))

/-- `LocalCeleryQueue._iter_done_tasks`: delivered messages whose task has
reached a terminal state, as (task id, entry) pairs. -/
def _iter_done_tasks (s : CelerySnapshot) : List (String × QueueEntry) :=
  ((_iter_processed s).filter (fun p => s.ready p.1.task_id)).map
    (fun p => (p.1.task_id, p.2))

/-- `LocalCeleryQueue.iter_active`: the entries of `_iter_active_tasks`. -/
def iter_active (s : CelerySnapshot) : List QueueEntry :=
  (_iter_active_tasks s).map Prod.snd

/-- The entries of `_iter_done_tasks`: what consuming `iter_done()` as an
entry source yields, one entry per terminal delivered message. -/
def done_entries (s : CelerySnapshot) : List QueueEntry :=
  (_iter_done_tasks s).map Prod.snd

/-- The fast path of `LocalCeleryQueue.get_result`: load the info record
(`none` standing for `FileNotFoundError`, which the source swallows) and
produce its result only when it reports collected. -/
def load_collected (info : String → Option ExecutorInfo) (rev : String) :
    Option (Option ExecutorResult) :=
  match info rev with
  | some ei => if ei.collected then some ei.result else none
  | none => none

/-- `LocalCeleryQueue.get_result`. `info` is the info-record store at the
first `_load_info`, `info2` the store at the re-load performed after the
blocking wait, and `wait tid timeout` the outcome of
`AsyncResult(tid).get(timeout=timeout)` (`true` when the task completed,
`false` when a celery `TimeoutError` was raised; a `timeout` of `none` is
celery's unbounded wait). Mirrors the source: fast path on a collected
info record, then the queued scan, then the active scan with a blocking
wait on the first match, then the invalid-experiment failure. -/
def get_result (s : CelerySnapshot) (info info2 : String → Option ExecutorInfo)
    (wait : String → Option Nat → Bool) (timeout : Option Nat)
    (entry : QueueEntry) : Except QErr (Option ExecutorResult) :=
  match load_collected info entry.stash_rev with
  | some r => .ok r
  | none =>
    if (iter_queued s).any (fun q => entry.stash_rev == q.stash_rev) then
      .error .dvcNotStarted
    else
      match (_iter_active_tasks s).find? (fun p => entry.stash_rev == p.2.stash_rev) with
      | some p =>
        if wait p.1 timeout then
          match info2 entry.stash_rev with
          | some ei => .ok ei.result
          | none => .error .fileNotFound
        else .error .dvcTimedOut
      | none => .error .dvcInvalidExp

/-- One step of the `iter_done` generator, abstracted over the result
lookup `gr`: yields `(entry, gr entry)` per done task, propagating the
first exception `gr` raises (later elements are then never produced, as
for a Python generator). -/
def iter_done_list (gr : QueueEntry → Except QErr (Option ExecutorResult)) :
    List (String × QueueEntry) →
    Except QErr (List (QueueEntry × Option ExecutorResult))
  | [] => .ok []
  | p :: rest =>
    match gr p.2 with
    | .error e => .error e
    | .ok r =>
      match iter_done_list gr rest with
      | .error e => .error e
      | .ok acc => .ok ((p.2, r) :: acc)

/-- `LocalCeleryQueue.iter_done`: pairs each done task's entry with
`get_result` for that entry (called with the default unbounded timeout,
as in the source). -/
def iter_done (s : CelerySnapshot) (info info2 : String → Option ExecutorInfo)
    (wait : String → Option Nat → Bool) :
    Except QErr (List (QueueEntry × Option ExecutorResult)) :=
  iter_done_list (get_result s info info2 wait none) (_iter_done_tasks s)

end LocalCeleryQueue

/-- Modelled from the spec: one identifier matches one entry when the
entry revision starts with the identifier or the entry symbolic name
equals the identifier (`BaseStashQueue.match_queue_entry_by_name` lives in
`queue/base.py`, which is not under `src/`). -/
def entryMatches (ident : String) (e : QueueEntry) : Bool :=
  ident.data.isPrefixOf e.stash_rev.data || e.name == some ident

/-- Modelled from the spec: the scan of one identifier over the entry
sources in order, stopping at the first match; first source wins;
an unmatched identifier yields `none`. -/
def matchName (ident : String) : List (List QueueEntry) → Option QueueEntry
  | [] => none
  | src :: rest =>
    match src.find? (entryMatches ident) with
    | some e => some e
    | none => matchName ident rest

/-- Modelled from the spec: `BaseStashQueue.match_queue_entry_by_name`
produces a mapping from identifier to matched entry, in which unmatched
identifiers map to null (so the mapping always contains every requested
identifier as a key). The mapping is embedded as an association list over
the deduplicated identifiers. -/
def match_queue_entry_by_name (idents : List String)
    (sources : List (List QueueEntry)) : List (String × Option QueueEntry) :=
  idents.map (fun i => (i, matchName i sources))

namespace LocalCeleryQueue

/-- The `name_dict` built by `LocalCeleryQueue.kill`: the given
revisions (a Python set, embedded as the deduplicated list) resolved
against the active entries only. -/
def kill_name_dict (s : CelerySnapshot) (revs : List String) :
    List (String × Option QueueEntry) :=
  match_queue_entry_by_name revs.dedup [iter_active s]

/-- The `missing_rev` list of `LocalCeleryQueue.kill`: the identifiers the
resolution left unmatched. -/
def kill_missing (s : CelerySnapshot) (revs : List String) : List String :=
  ((kill_name_dict s revs).filter (fun p => p.2.isNone)).map Prod.fst

/-- The `to_kill` collection of `LocalCeleryQueue.kill`: the entries the
resolution matched (a Python set of entries; embedded as the list of
matches, whose membership is what the claims speak about). -/
def kill_to_kill (s : CelerySnapshot) (revs : List String) : List QueueEntry :=
  (kill_name_dict s revs).filterMap Prod.snd

/-- `LocalCeleryQueue.kill`: resolve against active entries only; if any
identifier is unmatched raise `UnresolvedQueueExpNamesError` with the
misses (so no `proc.kill` is issued at all); otherwise ask the process
manager to kill the process keyed by each resolved entry's stash
revision — the returned list is the sequence of keys passed to
`proc.kill`. -/
def kill (s : CelerySnapshot) (revs : List String) :
    Except QErr (List String) :=
  if (kill_missing s revs).isEmpty then
    .ok ((kill_to_kill s revs).map QueueEntry.stash_rev)
  else
    .error (.unresolvedNames (kill_missing s revs))

/-- The observable outcome of `LocalCeleryQueue.logs`: either the live
follow path was taken, or the recorded stdout file contents were
written. -/
inductive LogsOut where
  | followed
  | contents (text : String)
deriving DecidableEq, Repr

/-- `LocalCeleryQueue.logs`. `procStdout rev` is the contents of the
recorded stdout file of the process keyed by `rev` (`none` standing for
the `KeyError` of `self.proc[...]`). Resolution order mirrors the source:
first against active plus done entries; on a miss, the source tests
`rev in match_queue_entry_by_name({rev}, iter_queued())` — a key-membership
test on the returned mapping — and raises the queued-but-not-started
error when it holds, else `UnresolvedQueueExpNamesError`. -/
def logs (s : CelerySnapshot) (procStdout : String → Option String)
    (rev : String) (follow : Bool) : Except QErr LogsOut :=
  match matchName rev [iter_active s, done_entries s] with
  | some qe =>
    if follow then .ok .followed
    else
      match procStdout qe.stash_rev with
      | none => .error (.dvcNoLogs rev)
      | some text => .ok (.contents text)
  | none =>
    if (match_queue_entry_by_name [rev] [iter_queued s]).any
        (fun p => p.1 == rev) then
      .error (.dvcQueuedNotStarted rev)
    else
      .error (.unresolvedNames [rev])

/-- One externally visible effect of `_remove_revs`: a broker-side
`celery.reject(delivery_tag)` or the stash-side removal performed by
`super()._remove_revs` (modelled from the spec: the base-class method,
not under `src/`, removes the given stash records). -/
inductive RemoveEff where
  | reject (delivery_tag : String)
  | removeStash (revs : List String)
deriving DecidableEq, Repr

/-- The rejection pass of `LocalCeleryQueue._remove_revs`: one
`celery.reject` per still-queued message whose decoded entry's stash
revision is among the given revisions. `stash_revs` is the key set of the
given mapping. `failAfter = some k` means iterating or rejecting the
queued messages raises after the first `k` message pairs were processed
(the `try` block aborts there); `failAfter = none` is the non-failing
run. -/
def remove_rejects (s : CelerySnapshot) (stash_revs : List String)
    (failAfter : Option Nat) : List RemoveEff :=
  let msgs :=
    match failAfter with
    | none => _iter_queued s
    | some k => (_iter_queued s).take k
  (msgs.filter (fun p => stash_revs.contains p.2.stash_rev)).map
    (fun p => RemoveEff.reject p.1.delivery_tag)

/-- The full effect trace of `_remove_revs`: the rejection pass of the
`try` block, then the stash-side removal from the `finally` block, which
runs whether or not the pass failed. The second component records whether
an exception propagates out of the call. -/
def _remove_revs (s : CelerySnapshot) (stash_revs : List String)
    (failAfter : Option Nat) : List RemoveEff × Bool :=
  (remove_rejects s stash_revs failAfter ++ [RemoveEff.removeStash stash_revs],
    failAfter.isSome)

end LocalCeleryQueue

/-- Modelled from the spec: the executor built by
`BaseStashQueue.setup_executor` (in `queue/base.py`, not under `src/`) is
bound to the entry it was constructed for. -/
structure Executor where
  bound : QueueEntry
deriving DecidableEq, Repr

/-- Modelled from the spec: `setup_executor` constructs an executor bound
to the given entry. -/
def setup_executor (entry : QueueEntry) : Executor := ⟨entry⟩

namespace WorkspaceQueue

/-- The state `WorkspaceQueue` reads: the repo and scm roots, the stash
reference name, and the stash records. Modelled from the spec: the stash
collaborator lists its records ordered by insertion, oldest first, and a
record is destroyed when the corresponding work completes. -/
structure WorkspaceState where
  repo_root : String
  scm_root : String
  ref : String
  stash_revs : List (String × ExpStashEntry)

/-- The `QueueEntry` that `WorkspaceQueue.get` builds from one stash
record. -/
def mkEntry (st : WorkspaceState) (rev : String) (se : ExpStashEntry) :
    QueueEntry :=
  ⟨st.repo_root, st.scm_root, st.ref, rev, se.baseline_rev, se.branch,
    se.name, se.head_rev⟩

/-- `WorkspaceQueue.get`: raise `ExpQueueEmptyError` when no stash records
remain, otherwise take the first stash record (the oldest, under the
spec-modelled ordering) and return its entry paired with an executor
bound to it. -/
def get (st : WorkspaceState) : Except QErr (QueueEntry × Executor) :=
  match st.stash_revs with
  | [] => .error .expQueueEmpty
  | (rev, se) :: _ =>
    let entry := mkEntry st rev se
    .ok (entry, setup_executor entry)

/-- The results mapping accumulated by `reproduce`: revision to a mapping
from produced experiment reference to experiment hash (Python nested
dicts, embedded as association lists). -/
abbrev Results := List (String × List (String × String))

/-- Python `dict.update`: keys of `u` override those of `d`, keys new in
`u` are appended in order. -/
def dictUpdate (d u : Results) : Results :=
  d.map (fun p =>
    match u.find? (fun q => q.1 == p.1) with
    | some q => q
    | none => p)
  ++ u.filter (fun q => d.all (fun p => p.1 != q.1))

/-- How one call of `executor.reproduce` inside `_reproduce_entry` ends:
it returns an `ExecutorResult`, raises `CheckpointKilledError`, raises
some `DvcException` (re-raised unchanged by the source), or raises any
other exception (wrapped by the source). -/
inductive ExecOutcome where
  | finished (r : ExecutorResult)
  | checkpointKilled
  | dvcError (e : QErr)
  | otherError
deriving DecidableEq, Repr

/-- The behaviour of the executor collaborator on one entry: how
`executor.reproduce` ends, and the value `scm.get_ref(EXEC_BRANCH)` has
when `collect_executor` afterwards reads it. -/
structure EntryExec where
  outcome : ExecOutcome
  exec_branch : Option String
deriving DecidableEq, Repr

/-- `WorkspaceQueue.collect_executor`: reads the experiment branch ref;
when it is set, records it mapped to the experiment hash (the source
asserts the hash is non-falsy there, which its only call site has already
checked). -/
def collect_executor (exec_branch : Option String)
    (exec_result : ExecutorResult) : List (String × String) :=
  match exec_branch with
  | some exp_rev => [(exp_rev, exec_result.exp_hash.getD "")]
  | none => []

/-- The guarded block of `WorkspaceQueue._reproduce_entry`: a missing or
empty experiment hash is raised as the failed-reproduce `DvcException`; a
produced `ref_info` has its collection recorded under the entry revision
(a falsy `ref_info` leaves the results empty); `CheckpointKilledError` is
swallowed, returning the empty mapping; other `DvcException`s re-raise
unchanged; any other exception is wrapped into the failed-reproduce
`DvcException`. -/
def _reproduce_entry_body (ex : EntryExec) (rev : String) :
    Except QErr Results :=
  match ex.outcome with
  | .finished r =>
    if (r.exp_hash.getD "").isEmpty then
      .error (.dvcFailedReproduce (rev.take 7))
    else if r.ref_info.isSome then
      .ok [(rev, collect_executor ex.exec_branch r)]
    else
      .ok []
  | .checkpointKilled => .ok []
  | .dvcError e => .error e
  | .otherError => .error (.dvcFailedReproduce (rev.take 7))

/-- `WorkspaceQueue._reproduce_entry`: the guarded block paired with the
`finally` clause, which invokes `executor.cleanup()` on every exit path
(the second component records that the cleanup ran). -/
def _reproduce_entry (ex : EntryExec) (rev : String) :
    Except QErr Results × Bool :=
  (_reproduce_entry_body ex rev, true)

/-- The drain loop of `WorkspaceQueue.reproduce` over the remaining stash
records, with `exec` the executor collaborator's behaviour per revision
and `acc` the results accumulated so far. An empty stash means `get`
raises `ExpQueueEmptyError`, which the loop's `except` clause absorbs,
returning the accumulated results; an `ExpQueueEmptyError` escaping
`_reproduce_entry` is absorbed the same way (the `try` block spans both
calls); any other exception propagates, discarding the accumulated
results. Each executed record is consumed (modelled from the spec: a
stash record is destroyed when its work completes). -/
def reproduce_go (exec : String → EntryExec) :
    List (String × ExpStashEntry) → Results → Except QErr Results
  | [], acc => .ok acc
  | (rev, _se) :: rest, acc =>
    match (_reproduce_entry (exec rev) rev).1 with
    | .error .expQueueEmpty => .ok acc
    | .error e => .error e
    | .ok r => reproduce_go exec rest (dictUpdate acc r)

/-- `WorkspaceQueue.reproduce`: drain the stash from an empty results
mapping. -/
def reproduce (exec : String → EntryExec) (st : WorkspaceState) :
    Except QErr Results :=
  reproduce_go exec st.stash_revs []

end WorkspaceQueue

/-! Concrete fixtures used by witnesses and counterexamples. -/

/-- A sample entry with stash revision `aaaa1111` and name `expA`. -/
def eAAAA : QueueEntry :=
  ⟨"/repo", "/repo", "refs/exps/stash", "aaaa1111", "base0000", none,
    some "expA", none⟩

/-- A sample entry with stash revision `bbbb2222` and name `expB`. -/
def eBBBB : QueueEntry :=
  ⟨"/repo", "/repo", "refs/exps/stash", "bbbb2222", "base0000", none,
    some "expB", none⟩

/-- A queued broker message carrying `eAAAA`. -/
def msgQueuedA : Message := ⟨some run_exp_name, "tidA", "tagA", eAAAA⟩

/-- A delivered broker message carrying `eBBBB`. -/
def msgProcB : Message := ⟨some run_exp_name, "tidB", "tagB", eBBBB⟩

/-- A snapshot with no queued and no delivered messages. -/
def emptyCelery : CelerySnapshot := ⟨[], [], fun _ => false⟩

/-- A snapshot where `eBBBB` has been delivered and its task is not
terminal (so `eBBBB` is active). -/
def snapActiveB : CelerySnapshot := ⟨[], [msgProcB], fun _ => false⟩

/-- A snapshot where `eBBBB` has been delivered and its task is terminal
(so `eBBBB` is done). -/
def snapDoneB : CelerySnapshot := ⟨[], [msgProcB], fun _ => true⟩

/-- A snapshot where `eAAAA` is still queued (not yet delivered). -/
def snapQueuedA : CelerySnapshot := ⟨[msgQueuedA], [], fun _ => false⟩

/-- A sample collected executor result. -/
def resB : ExecutorResult := ⟨some "hashB", some "refB"⟩

/-- An info-record store holding a collected record for `bbbb2222`. -/
def infoCollectedB : String → Option ExecutorInfo :=
  fun r => if r == "bbbb2222" then some ⟨true, some resB⟩ else none

/-- An info-record store holding an uncollected record for `bbbb2222`. -/
def infoUncollectedB : String → Option ExecutorInfo :=
  fun r => if r == "bbbb2222" then some ⟨false, some resB⟩ else none

/-- The empty info-record store (every load raises FileNotFoundError). -/
def infoNone : String → Option ExecutorInfo := fun _ => none

/-- A wait oracle whose every blocking wait completes. -/
def waitAlways : String → Option Nat → Bool := fun _ _ => true

/-- A wait oracle whose every bounded blocking wait times out. -/
def waitNever : String → Option Nat → Bool := fun _ _ => false

/-- A stub stash record. -/
def seStub : ExpStashEntry := ⟨"base0000", none, none, none⟩

/-- An executor behaviour where `revA0000` and `revC0000` succeed with a
collected branch and `revB0000` is checkpoint-killed. -/
def execC2 : String → WorkspaceQueue.EntryExec := fun rev =>
  if rev == "revA0000" then
    ⟨.finished ⟨some "hashA", some "refA"⟩, some "branchA"⟩
  else if rev == "revB0000" then ⟨.checkpointKilled, none⟩
  else ⟨.finished ⟨some "hashC", some "refC"⟩, some "branchC"⟩

/-- A workspace state whose stash holds `revA0000`, `revB0000`,
`revC0000` in insertion order. -/
def stC2 : WorkspaceQueue.WorkspaceState :=
  ⟨"/repo", "/repo", "refs/exps/stash",
    [("revA0000", seStub), ("revB0000", seStub), ("revC0000", seStub)]⟩

/-- A workspace state with an empty stash. -/
def stEmpty : WorkspaceQueue.WorkspaceState :=
  ⟨"/repo", "/repo", "refs/exps/stash", []⟩

/-- The fast-path miss condition of `get_result`: the info record for the
revision either does not exist or does not report collected. -/
def fastMiss (info : String → Option ExecutorInfo) (rev : String) : Prop :=
  ∀ ei, info rev = some ei → ei.collected = false

/-! Theorems. -/

theorem dictUpdate_nil (d : WorkspaceQueue.Results) :
    WorkspaceQueue.dictUpdate d [] = d := by
  simp [WorkspaceQueue.dictUpdate]

theorem reproduce_go_ne_empty (exec : String → WorkspaceQueue.EntryExec) :
    ∀ (l : List (String × ExpStashEntry)) (acc : WorkspaceQueue.Results),
      WorkspaceQueue.reproduce_go exec l acc ≠ .error .expQueueEmpty
  | [], acc => by simp [WorkspaceQueue.reproduce_go]
  | (rev, se) :: rest, acc => by
    unfold WorkspaceQueue.reproduce_go
    rcases h : (WorkspaceQueue._reproduce_entry (exec rev) rev).1 with e | r
    · cases e <;> simp
    · exact reproduce_go_ne_empty exec rest _

/-- C7: the synchronous queue's `get` fails with the empty-queue condition
exactly when no stash records remain, and otherwise returns the entry
built from the first (oldest, under the spec-modelled stash ordering)
stash record, paired with an executor bound to that entry. -/
theorem C7_workspace_get (st : WorkspaceQueue.WorkspaceState) :
    (st.stash_revs = [] → WorkspaceQueue.get st = .error .expQueueEmpty)
    ∧ (∀ rev se rest, st.stash_revs = (rev, se) :: rest →
        WorkspaceQueue.get st =
          .ok (WorkspaceQueue.mkEntry st rev se,
            setup_executor (WorkspaceQueue.mkEntry st rev se))) := by
  constructor
  · intro h; simp [WorkspaceQueue.get, h]
  · intro rev se rest h; simp [WorkspaceQueue.get, h]

theorem C7_workspace_get_witness :
    WorkspaceQueue.get stEmpty = .error .expQueueEmpty
    ∧ WorkspaceQueue.get stC2 =
        .ok (WorkspaceQueue.mkEntry stC2 "revA0000" seStub,
          setup_executor (WorkspaceQueue.mkEntry stC2 "revA0000" seStub)) :=
  ⟨(C7_workspace_get stEmpty).1 rfl,
   (C7_workspace_get stC2).2 "revA0000" seStub
     [("revB0000", seStub), ("revC0000", seStub)] rfl⟩

/-- C9: the synchronous queue's `reproduce` on an empty stash returns the
empty mapping, and the empty-queue condition raised by `get` during the
drain loop is always absorbed: `reproduce` never propagates it, returning
instead the results accumulated so far. -/
theorem C9_reproduce_absorbs_empty :
    (∀ (exec : String → WorkspaceQueue.EntryExec)
       (st : WorkspaceQueue.WorkspaceState),
        st.stash_revs = [] → WorkspaceQueue.reproduce exec st = .ok [])
    ∧ (∀ (exec : String → WorkspaceQueue.EntryExec)
         (st : WorkspaceQueue.WorkspaceState),
        WorkspaceQueue.reproduce exec st ≠ .error .expQueueEmpty) := by
  constructor
  · intro exec st h
    simp [WorkspaceQueue.reproduce, h, WorkspaceQueue.reproduce_go]
  · intro exec st
    exact reproduce_go_ne_empty exec st.stash_revs []

theorem C9_reproduce_absorbs_empty_witness :
    WorkspaceQueue.reproduce execC2 stEmpty = .ok [] :=
  C9_reproduce_absorbs_empty.1 execC2 stEmpty rfl

/-- C2 counterexample: with stash records `revA0000`, `revB0000`,
`revC0000` where `revB0000` is checkpoint-killed, `reproduce` neither
short-circuits nor discards partial results: it keeps the result
collected for `revA0000` before the kill and continues on to execute and
collect `revC0000`. -/
theorem C2_counterexample :
    WorkspaceQueue.reproduce execC2 stC2 =
      .ok [("revA0000", [("branchA", "hashA")]),
           ("revC0000", [("branchC", "hashC")])] := rfl

/-- C2 amended: in `_reproduce_entry`, an execution that returns without
an experiment hash raises the failed-reproduce error (fatal for the
call); the checkpoint-killed condition is swallowed per entry — that
entry contributes no results and the drain loop continues with the
remaining entries, retaining the results accumulated so far; and the
executor cleanup runs on every execution path. -/
theorem C2_reproduce_error_paths :
    (∀ (r : ExecutorResult) (eb : Option String) (rev : String),
        (r.exp_hash.getD "").isEmpty = true →
        (WorkspaceQueue._reproduce_entry ⟨.finished r, eb⟩ rev).1 =
          .error (.dvcFailedReproduce (rev.take 7)))
    ∧ (∀ (exec : String → WorkspaceQueue.EntryExec) (rev : String)
         (se : ExpStashEntry) (rest : List (String × ExpStashEntry))
         (acc : WorkspaceQueue.Results),
        (exec rev).outcome = .checkpointKilled →
        WorkspaceQueue.reproduce_go exec ((rev, se) :: rest) acc =
          WorkspaceQueue.reproduce_go exec rest acc)
    ∧ (∀ (ex : WorkspaceQueue.EntryExec) (rev : String),
        (WorkspaceQueue._reproduce_entry ex rev).2 = true) := by
  refine ⟨?_, ?_, ?_⟩
  · intro r eb rev h
    simp [WorkspaceQueue._reproduce_entry, WorkspaceQueue._reproduce_entry_body, h]
  · intro exec rev se rest acc h
    have hb : (WorkspaceQueue._reproduce_entry (exec rev) rev).1 = .ok [] := by
      simp [WorkspaceQueue._reproduce_entry, WorkspaceQueue._reproduce_entry_body, h]
    simp only [WorkspaceQueue.reproduce_go, hb, dictUpdate_nil]
  · intro ex rev; rfl

theorem C2_reproduce_error_paths_witness :
    (WorkspaceQueue._reproduce_entry ⟨.finished ⟨none, none⟩, none⟩
        "deadbeef00").1 = .error (.dvcFailedReproduce "deadbee")
    ∧ WorkspaceQueue.reproduce_go execC2 [("revB0000", seStub)] [] =
        WorkspaceQueue.reproduce_go execC2 [] [] :=
  ⟨C2_reproduce_error_paths.1 ⟨none, none⟩ none "deadbeef00" rfl,
   C2_reproduce_error_paths.2.1 execC2 "revB0000" seStub [] [] rfl⟩

theorem load_collected_eq_none (info : String → Option ExecutorInfo)
    (rev : String) (h : fastMiss info rev) :
    LocalCeleryQueue.load_collected info rev = none := by
  unfold LocalCeleryQueue.load_collected
  rcases hi : info rev with _ | ei
  · rfl
  · simp [h ei hi]

theorem queued_rev_mem_iff (s : CelerySnapshot) (rev : String) :
    ((LocalCeleryQueue.iter_queued s).any (fun q => rev == q.stash_rev) = true) ↔
      rev ∈ (LocalCeleryQueue.iter_queued s).map QueueEntry.stash_rev := by
  rw [List.any_eq_true]
  simp only [List.mem_map, beq_iff_eq]
  constructor
  · rintro ⟨q, hq, h⟩; exact ⟨q, hq, h.symm⟩
  · rintro ⟨q, hq, h⟩; exact ⟨q, hq, h.symm⟩

theorem queued_any_eq_false (s : CelerySnapshot) (rev : String)
    (h : rev ∉ (LocalCeleryQueue.iter_queued s).map QueueEntry.stash_rev) :
    (LocalCeleryQueue.iter_queued s).any (fun q => rev == q.stash_rev) = false := by
  rcases hval : (LocalCeleryQueue.iter_queued s).any (fun q => rev == q.stash_rev) with _ | _
  · rfl
  · exact absurd ((queued_rev_mem_iff s rev).mp hval) h

/-- C1: the four checks of the broker-backed queue's `get_result`, in
source order: (1) a collected info record is returned at once, whatever
the broker snapshot holds; (2) otherwise an entry whose stash revision is
still queued fails with the not-started error; (3) otherwise a match
among the active tasks blocks on the wait — a timed-out wait fails with
the timeout error, a completed wait re-reads the info record and returns
its result field; (4) otherwise the call fails with the
invalid-experiment error. -/
theorem C1_get_result_checks (s : CelerySnapshot)
    (info info2 : String → Option ExecutorInfo)
    (wait : String → Option Nat → Bool) (timeout : Option Nat)
    (entry : QueueEntry) :
    (∀ ei, info entry.stash_rev = some ei → ei.collected = true →
        LocalCeleryQueue.get_result s info info2 wait timeout entry =
          .ok ei.result)
    ∧ (fastMiss info entry.stash_rev →
        entry.stash_rev ∈
          (LocalCeleryQueue.iter_queued s).map QueueEntry.stash_rev →
        LocalCeleryQueue.get_result s info info2 wait timeout entry =
          .error .dvcNotStarted)
    ∧ (∀ tid ae, fastMiss info entry.stash_rev →
        entry.stash_rev ∉
          (LocalCeleryQueue.iter_queued s).map QueueEntry.stash_rev →
        (LocalCeleryQueue._iter_active_tasks s).find?
            (fun p => entry.stash_rev == p.2.stash_rev) = some (tid, ae) →
        (wait tid timeout = false →
            LocalCeleryQueue.get_result s info info2 wait timeout entry =
              .error .dvcTimedOut)
        ∧ (∀ ei2, wait tid timeout = true →
            info2 entry.stash_rev = some ei2 →
            LocalCeleryQueue.get_result s info info2 wait timeout entry =
              .ok ei2.result))
    ∧ (fastMiss info entry.stash_rev →
        entry.stash_rev ∉
          (LocalCeleryQueue.iter_queued s).map QueueEntry.stash_rev →
        (∀ p ∈ LocalCeleryQueue._iter_active_tasks s,
            entry.stash_rev ≠ p.2.stash_rev) →
        LocalCeleryQueue.get_result s info info2 wait timeout entry =
          .error .dvcInvalidExp) := by
  refine ⟨?_, ?_, ?_, ?_⟩
  · intro ei h1 h2
    simp [LocalCeleryQueue.get_result, LocalCeleryQueue.load_collected, h1, h2]
  · intro hf hq
    have h0 := load_collected_eq_none info entry.stash_rev hf
    have ha := (queued_rev_mem_iff s entry.stash_rev).mpr hq
    simp [LocalCeleryQueue.get_result, h0, ha]
  · intro tid ae hf hq hfind
    have h0 := load_collected_eq_none info entry.stash_rev hf
    have ha := queued_any_eq_false s entry.stash_rev hq
    constructor
    · intro hw
      simp [LocalCeleryQueue.get_result, h0, ha, hfind, hw]
    · intro ei2 hw hi2
      simp [LocalCeleryQueue.get_result, h0, ha, hfind, hw, hi2]
  · intro hf hq hact
    have h0 := load_collected_eq_none info entry.stash_rev hf
    have ha := queued_any_eq_false s entry.stash_rev hq
    have hfind : (LocalCeleryQueue._iter_active_tasks s).find?
        (fun p => entry.stash_rev == p.2.stash_rev) = none := by
      apply List.find?_eq_none.mpr
      intro p hp
      simpa using hact p hp
    simp [LocalCeleryQueue.get_result, h0, ha, hfind]

theorem C1_get_result_checks_witness :
    LocalCeleryQueue.get_result snapActiveB infoCollectedB infoCollectedB
        waitNever none eBBBB = .ok (some resB)
    ∧ LocalCeleryQueue.get_result emptyCelery infoNone infoNone waitAlways
        none eAAAA = .error .dvcInvalidExp := by
  constructor
  · exact (C1_get_result_checks snapActiveB infoCollectedB infoCollectedB
      waitNever none eBBBB).1 ⟨true, some resB⟩ rfl rfl
  · refine (C1_get_result_checks emptyCelery infoNone infoNone waitAlways
      none eAAAA).2.2.2 ?_ ?_ ?_
    · intro ei h; exact absurd h (by simp [infoNone])
    · simp [LocalCeleryQueue.iter_queued, LocalCeleryQueue._iter_queued,
        emptyCelery]
    · intro p hp
      exact absurd hp (by
        simp [LocalCeleryQueue._iter_active_tasks,
          LocalCeleryQueue._iter_processed, emptyCelery])

/-- C10: when the fast path misses because the info record exists but is
not collected, and the entry is found among the active tasks and its wait
completes, `get_result` returns the re-loaded record's result field with
no further look at the collected flag (`ei2` below is arbitrary — in
particular it need not report collected). -/
theorem C10_collected_checked_only_on_fast_path (s : CelerySnapshot)
    (info info2 : String → Option ExecutorInfo)
    (wait : String → Option Nat → Bool) (timeout : Option Nat)
    (entry : QueueEntry) (ei : ExecutorInfo) (tid : String)
    (ae : QueueEntry) (ei2 : ExecutorInfo)
    (h1 : info entry.stash_rev = some ei) (h2 : ei.collected = false)
    (hq : entry.stash_rev ∉
      (LocalCeleryQueue.iter_queued s).map QueueEntry.stash_rev)
    (hfind : (LocalCeleryQueue._iter_active_tasks s).find?
      (fun p => entry.stash_rev == p.2.stash_rev) = some (tid, ae))
    (hw : wait tid timeout = true)
    (hi2 : info2 entry.stash_rev = some ei2) :
    LocalCeleryQueue.get_result s info info2 wait timeout entry =
      .ok ei2.result := by
  have h0 : LocalCeleryQueue.load_collected info entry.stash_rev = none := by
    simp [LocalCeleryQueue.load_collected, h1, h2]
  have ha := queued_any_eq_false s entry.stash_rev hq
  simp [LocalCeleryQueue.get_result, h0, ha, hfind, hw, hi2]

theorem C10_collected_checked_only_on_fast_path_witness :
    LocalCeleryQueue.get_result snapActiveB infoUncollectedB infoUncollectedB
        waitAlways (some 5) eBBBB = .ok (some resB) := by
  refine C10_collected_checked_only_on_fast_path snapActiveB infoUncollectedB
    infoUncollectedB waitAlways (some 5) eBBBB ⟨false, some resB⟩ "tidB"
    eBBBB ⟨false, some resB⟩ rfl rfl ?_ rfl rfl rfl
  simp [LocalCeleryQueue.iter_queued, LocalCeleryQueue._iter_queued,
    snapActiveB]

/-- C3 (evaluation at the failing input): for an identifier that resolves
against none of queued, active or done — here any identifier over an
empty broker snapshot — `logs` nevertheless fails with the
queued-but-not-started error, because the source tests key membership
(`rev in ...`) on a mapping that always contains the requested identifier
as a key; the unresolved-names branch is unreachable. The first conjunct
shows the identifier indeed matches nothing among the queued entries. -/
theorem C3_logs_unknown_rev_misreported :
    matchName "deadbeef" [LocalCeleryQueue.iter_queued emptyCelery] = none
    ∧ LocalCeleryQueue.logs emptyCelery (fun _ => none) "deadbeef" false =
        .error (.dvcQueuedNotStarted "deadbeef") :=
  ⟨rfl, rfl⟩

/-- C4: `kill` resolves the given identifiers against the active entries
only; the misses are exactly the identifiers the resolution leaves
unmatched, and when there is at least one miss the call fails with the
unresolved-names error listing them, issuing no process-manager kill at
all; when all resolve, the process manager is asked to kill the key given
by each resolved entry's stash revision. -/
theorem C4_kill_resolution (s : CelerySnapshot) (revs : List String) :
    (∀ r, r ∈ LocalCeleryQueue.kill_missing s revs ↔
        r ∈ revs.dedup ∧ matchName r [LocalCeleryQueue.iter_active s] = none)
    ∧ (∀ k, k ∈ (LocalCeleryQueue.kill_to_kill s revs).map QueueEntry.stash_rev ↔
        ∃ r ∈ revs.dedup, ∃ e,
          matchName r [LocalCeleryQueue.iter_active s] = some e ∧
          e.stash_rev = k)
    ∧ (LocalCeleryQueue.kill_missing s revs ≠ [] →
        LocalCeleryQueue.kill s revs =
          .error (.unresolvedNames (LocalCeleryQueue.kill_missing s revs)))
    ∧ (LocalCeleryQueue.kill_missing s revs = [] →
        LocalCeleryQueue.kill s revs =
          .ok ((LocalCeleryQueue.kill_to_kill s revs).map
            QueueEntry.stash_rev)) := by
  refine ⟨?_, ?_, ?_, ?_⟩
  · intro r
    simp [LocalCeleryQueue.kill_missing, LocalCeleryQueue.kill_name_dict,
      match_queue_entry_by_name, List.mem_map, List.mem_filter,
      Option.isNone_iff_eq_none]
    constructor
    · rintro ⟨a, ha, rfl, hm⟩; exact ⟨ha, hm⟩
    · rintro ⟨hr, hm⟩; exact ⟨r, hr, rfl, hm⟩
  · intro k
    simp [LocalCeleryQueue.kill_to_kill, LocalCeleryQueue.kill_name_dict,
      match_queue_entry_by_name, List.mem_map, List.mem_filterMap]
    constructor
    · rintro ⟨e, ⟨r, hr, hm⟩, hk⟩; exact ⟨r, hr, e, hm, hk⟩
    · rintro ⟨r, hr, e, hm, hk⟩; exact ⟨e, ⟨r, hr, hm⟩, hk⟩
  · intro h
    have hv : (LocalCeleryQueue.kill_missing s revs).isEmpty = false := by
      rcases hb : (LocalCeleryQueue.kill_missing s revs).isEmpty with _ | _
      · rfl
      · exact absurd (List.isEmpty_iff.mp hb) h
    simp [LocalCeleryQueue.kill, hv]
  · intro h
    simp [LocalCeleryQueue.kill, h]

theorem C4_kill_resolution_witness :
    LocalCeleryQueue.kill snapActiveB ["bbbb2222", "zzzz"] =
      .error (.unresolvedNames ["zzzz"]) :=
  ((C4_kill_resolution snapActiveB ["bbbb2222", "zzzz"]).2.2.1
    (by decide)).trans rfl

theorem getLast_append_single {α : Type} (l : List α) (a : α) :
    (l ++ [a]).getLast? = some a :=
  List.getLast?_concat l

/-- C8: in `_remove_revs`, the stash-side removal is the last effect of
the trace — so every broker-side rejection precedes it — and it is
present in the trace for every `failAfter`, including the runs where
iterating or rejecting the queued messages fails partway; everything
before it is a rejection; and in the non-failing run every still-queued
message whose decoded entry's stash revision is among the given revisions
has its delivery tag rejected before the stash removal. -/
theorem C8_remove_revs_order (s : CelerySnapshot) (revs : List String)
    (failAfter : Option Nat) :
    ((LocalCeleryQueue._remove_revs s revs failAfter).1.getLast? =
        some (.removeStash revs))
    ∧ (∀ eff ∈ (LocalCeleryQueue._remove_revs s revs failAfter).1.dropLast,
        ∃ tag, eff = .reject tag)
    ∧ (failAfter = none →
        ∀ p ∈ LocalCeleryQueue._iter_queued s,
          revs.contains p.2.stash_rev = true →
          LocalCeleryQueue.RemoveEff.reject p.1.delivery_tag ∈
            (LocalCeleryQueue._remove_revs s revs failAfter).1.dropLast) := by
  refine ⟨?_, ?_, ?_⟩
  · exact getLast_append_single _ _
  · intro eff h
    rw [show (LocalCeleryQueue._remove_revs s revs failAfter).1.dropLast =
        LocalCeleryQueue.remove_rejects s revs failAfter from
      List.dropLast_concat] at h
    obtain ⟨p, _, rfl⟩ := List.mem_map.mp h
    exact ⟨p.1.delivery_tag, rfl⟩
  · intro hf p hp hc
    subst hf
    rw [show (LocalCeleryQueue._remove_revs s revs none).1.dropLast =
        LocalCeleryQueue.remove_rejects s revs none from List.dropLast_concat]
    exact List.mem_map.mpr ⟨p, List.mem_filter.mpr ⟨hp, hc⟩, rfl⟩

theorem C8_remove_revs_order_witness :
    ((LocalCeleryQueue._remove_revs snapQueuedA ["aaaa1111"] none).1.getLast? =
        some (.removeStash ["aaaa1111"]))
    ∧ LocalCeleryQueue.RemoveEff.reject "tagA" ∈
        (LocalCeleryQueue._remove_revs snapQueuedA ["aaaa1111"] none).1.dropLast
    ∧ ((LocalCeleryQueue._remove_revs snapQueuedA ["aaaa1111"]
          (some 0)).1.getLast? = some (.removeStash ["aaaa1111"])) :=
  ⟨(C8_remove_revs_order snapQueuedA ["aaaa1111"] none).1,
   (C8_remove_revs_order snapQueuedA ["aaaa1111"] none).2.2 rfl
     (msgQueuedA, eAAAA) (List.mem_singleton.mpr rfl) rfl,
   (C8_remove_revs_order snapQueuedA ["aaaa1111"] (some 0)).1⟩

theorem mem_iter_active_iff (s : CelerySnapshot) (e : QueueEntry) :
    e ∈ LocalCeleryQueue.iter_active s ↔
      ∃ m ∈ s.processed, m.task = some run_exp_name ∧
        s.ready m.task_id = false ∧ m.entry = e := by
  simp [LocalCeleryQueue.iter_active, LocalCeleryQueue._iter_active_tasks,
    LocalCeleryQueue._iter_processed, List.mem_map, List.mem_filter]
  constructor
  · rintro ⟨a, ⟨m, ⟨hm, ht⟩, rfl, he⟩, hr⟩; exact ⟨m, hm, ht, hr, he⟩
  · rintro ⟨m, hm, ht, hr, he⟩; exact ⟨m, ⟨m, ⟨hm, ht⟩, rfl, he⟩, hr⟩

theorem mem_done_entries_iff (s : CelerySnapshot) (e : QueueEntry) :
    e ∈ LocalCeleryQueue.done_entries s ↔
      ∃ m ∈ s.processed, m.task = some run_exp_name ∧
        s.ready m.task_id = true ∧ m.entry = e := by
  simp [LocalCeleryQueue.done_entries, LocalCeleryQueue._iter_done_tasks,
    LocalCeleryQueue._iter_processed, List.mem_map, List.mem_filter]
  constructor
  · rintro ⟨a, ⟨m, ⟨hm, ht⟩, rfl, he⟩, hr⟩; exact ⟨m, hm, ht, hr, he⟩
  · rintro ⟨m, hm, ht, hr, he⟩; exact ⟨m, ⟨m, ⟨hm, ht⟩, rfl, he⟩, hr⟩

/-- C5: over one snapshot in which delivered messages decoding to the same
entry agree on their task's terminal status (as the per-state uniqueness
of stash revisions guarantees), an entry is yielded by `iter_active` or by
`iter_done` exactly when some delivered message of this system's task
type decodes to it — messages of other task types are yielded by
neither — and no entry is yielded by both. -/
theorem C5_active_done_partition (s : CelerySnapshot)
    (hconsist : ∀ m₁ ∈ s.processed, ∀ m₂ ∈ s.processed,
        m₁.task = some run_exp_name → m₂.task = some run_exp_name →
        m₁.entry = m₂.entry → s.ready m₁.task_id = s.ready m₂.task_id)
    (e : QueueEntry) :
    ((e ∈ LocalCeleryQueue.iter_active s ∨
        e ∈ LocalCeleryQueue.done_entries s) ↔
      ∃ m ∈ s.processed, m.task = some run_exp_name ∧ m.entry = e)
    ∧ ¬(e ∈ LocalCeleryQueue.iter_active s ∧
        e ∈ LocalCeleryQueue.done_entries s) := by
  constructor
  · rw [mem_iter_active_iff, mem_done_entries_iff]
    constructor
    · rintro (⟨m, hm, ht, _, he⟩ | ⟨m, hm, ht, _, he⟩) <;> exact ⟨m, hm, ht, he⟩
    · rintro ⟨m, hm, ht, he⟩
      rcases hr : s.ready m.task_id with _ | _
      · exact Or.inl ⟨m, hm, ht, hr, he⟩
      · exact Or.inr ⟨m, hm, ht, hr, he⟩
  · rintro ⟨hact, hdone⟩
    obtain ⟨m₁, hm₁, ht₁, hr₁, he₁⟩ := (mem_iter_active_iff s e).mp hact
    obtain ⟨m₂, hm₂, ht₂, hr₂, he₂⟩ := (mem_done_entries_iff s e).mp hdone
    have := hconsist m₁ hm₁ m₂ hm₂ ht₁ ht₂ (he₁.trans he₂.symm)
    rw [hr₁, hr₂] at this
    exact Bool.false_ne_true this

theorem C5_active_done_partition_witness :
    ¬(eBBBB ∈ LocalCeleryQueue.iter_active snapActiveB ∧
        eBBBB ∈ LocalCeleryQueue.done_entries snapActiveB) :=
  (C5_active_done_partition snapActiveB
    (fun m₁ h₁ m₂ h₂ _ _ _ => by
      rw [List.mem_singleton.mp h₁, List.mem_singleton.mp h₂]) eBBBB).2

/-- C6 counterexample: over a snapshot holding one terminal delivered
task whose info record has never been written, `iter_done` does not yield
the pair with a graceful default — `get_result` raises the
invalid-experiment error (the entry being in neither queued nor active),
and the iteration fails. -/
theorem C6_counterexample :
    LocalCeleryQueue.iter_done snapDoneB infoNone infoNone waitAlways =
      .error .dvcInvalidExp := rfl

theorem iter_done_list_collected
    (gr : QueueEntry → Except QErr (Option ExecutorResult))
    (g : String × QueueEntry → Option ExecutorResult) :
    ∀ (l : List (String × QueueEntry)), (∀ p ∈ l, gr p.2 = .ok (g p)) →
      LocalCeleryQueue.iter_done_list gr l = .ok (l.map (fun p => (p.2, g p)))
  | [], _ => rfl
  | p :: rest, h => by
    have hrest := iter_done_list_collected gr g rest
      (fun q hq => h q (List.mem_cons_of_mem _ hq))
    simp only [LocalCeleryQueue.iter_done_list, h p (List.mem_cons_self p rest),
      hrest, List.map_cons]

/-- C6 amended: each pair yielded by `iter_done` carries the value of
`get_result` for that entry; when every terminal task's info record
exists and reports collected, the iteration succeeds and pairs each entry
with its record's result field — but there is no graceful default: a
missing or uncollected record makes `get_result` raise instead (see the
counterexample). -/
theorem C6_iter_done_pairs_collected_results (s : CelerySnapshot)
    (info info2 : String → Option ExecutorInfo)
    (wait : String → Option Nat → Bool)
    (h : ∀ p ∈ LocalCeleryQueue._iter_done_tasks s,
        ∃ ei, info p.2.stash_rev = some ei ∧ ei.collected = true) :
    LocalCeleryQueue.iter_done s info info2 wait =
      .ok ((LocalCeleryQueue._iter_done_tasks s).map
        (fun p => (p.2, (info p.2.stash_rev).elim none ExecutorInfo.result))) := by
  apply iter_done_list_collected
  intro p hp
  obtain ⟨ei, hei, hcol⟩ := h p hp
  simp [LocalCeleryQueue.get_result, LocalCeleryQueue.load_collected, hei, hcol]

theorem C6_iter_done_pairs_collected_results_witness :
    LocalCeleryQueue.iter_done snapDoneB infoCollectedB infoCollectedB
        waitAlways = .ok [(eBBBB, some resB)] :=
  (C6_iter_done_pairs_collected_results snapDoneB infoCollectedB
    infoCollectedB waitAlways (fun p hp => by
      rw [List.mem_singleton.mp hp]
      exact ⟨⟨true, some resB⟩, rfl, rfl⟩)).trans rfl
